import Mathlib

/-!
Shallow embedding of the forum backend's data model and route handlers
(threads, posts, categories, users) over an in-memory document store.
Collections are lists of documents; `find?` models `findOne` (first match),
mapping over a collection models `findByIdAndUpdate` / `save` by `_id`.
Counters are `Int` (JS numbers, `$inc` can drive them negative).
List order of a collection is insertion order, which coincides with
`createdAt` order for documents created by these handlers.
-/

namespace Forum

inductive Role where
  | user
  | admin
  deriving DecidableEq, Repr

structure LikeEntry where
  user : Nat
  createdAt : Nat
  deriving DecidableEq, Repr

structure User where
  id : Nat
  role : Role
  postCount : Int
  isActive : Bool
  deriving DecidableEq, Repr

structure Category where
  id : Nat
  name : String
  isActive : Bool
  threadCount : Int
  postCount : Int
  order : Int
  deriving DecidableEq, Repr

structure LastReply where
  author : Option Nat
  createdAt : Nat
  deriving DecidableEq, Repr

structure Thread where
  id : Nat
  title : String
  content : String
  author : Nat
  category : Nat
  isPinned : Bool
  isLocked : Bool
  isActive : Bool
  views : Int
  replyCount : Int
  lastReply : LastReply
  tags : List String
  likes : List LikeEntry
  deriving DecidableEq, Repr

structure EditEntry where
  content : String
  editedAt : Nat
  deriving DecidableEq, Repr

structure Post where
  id : Nat
  content : String
  author : Nat
  thread : Nat
  parentPost : Option Nat
  isActive : Bool
  likes : List LikeEntry
  isEdited : Bool
  editedAt : Option Nat
  editHistory : List EditEntry
  deriving DecidableEq, Repr

structure Store where
  users : List User
  categories : List Category
  threads : List Thread
  posts : List Post
  deriving DecidableEq, Repr

inductive Outcome where
  | ok
  | created
  | badRequest
  | forbidden
  | notFound
  | serverError
  deriving DecidableEq, Repr

/-- Lookup of a user document by `_id`. -/
def Store.userById (s : Store) (x : Nat) : Option User :=
  s.users.find? (fun u => u.id == x)

/-- Lookup of a category document by `_id`. -/
def Store.categoryById (s : Store) (x : Nat) : Option Category :=
  s.categories.find? (fun c => c.id == x)

/-- Lookup of a thread document by `_id`. -/
def Store.threadById (s : Store) (x : Nat) : Option Thread :=
  s.threads.find? (fun t => t.id == x)

/-- Lookup of a post document by `_id`. -/
def Store.postById (s : Store) (x : Nat) : Option Post :=
  s.posts.find? (fun p => p.id == x)

/-- Model of `User.findByIdAndUpdate`: apply `f` to the user documents with `_id = x`. -/
def updUserDoc (s : Store) (x : Nat) (f : User → User) : Store :=
  { s with users := s.users.map (fun u => if u.id == x then f u else u) }

/-- Model of `Category.findByIdAndUpdate`: apply `f` to the category documents with `_id = x`. -/
def updCategoryDoc (s : Store) (x : Nat) (f : Category → Category) : Store :=
  { s with categories := s.categories.map (fun c => if c.id == x then f c else c) }

/-- Model of `Thread.findByIdAndUpdate`: apply `f` to the thread documents with `_id = x`. -/
def updThreadDoc (s : Store) (x : Nat) (f : Thread → Thread) : Store :=
  { s with threads := s.threads.map (fun t => if t.id == x then f t else t) }

/-- Model of `post.save()`: write back document `p` over every stored post with the same `_id`. -/
def savePost (s : Store) (p : Post) : Store :=
  { s with posts := s.posts.map (fun q => if q.id == p.id then p else q) }

/-- Model of `thread.save()`: write back document `t` over every stored thread with the same `_id`. -/
def saveThread (s : Store) (t : Thread) : Store :=
  { s with threads := s.threads.map (fun q => if q.id == t.id then t else q) }

/-- The like-toggle on a likes array (`POST /posts/:id/like`, `POST /threads/:id/like`):
if an entry for `uid` exists, remove every entry for `uid`; otherwise append one. -/
def toggleLikes (likes : List LikeEntry) (uid now : Nat) : List LikeEntry :=
  if likes.any (fun l => l.user == uid) then
    likes.filter (fun l => l.user != uid)
  else
    likes ++ [{ user := uid, createdAt := now }]

/-- Handler `POST /posts/:id/like`. -/
def likePost (actor : User) (pid now : Nat) (s : Store) : Outcome × Store :=
  match s.posts.find? (fun p => p.id == pid && p.isActive) with
  | none => (Outcome.notFound, s)
  | some post =>
      (Outcome.ok, savePost s { post with likes := toggleLikes post.likes actor.id now })

/-- Handler `POST /threads/:id/like`. -/
def likeThread (actor : User) (tid now : Nat) (s : Store) : Outcome × Store :=
  match s.threads.find? (fun t => t.id == tid && t.isActive) with
  | none => (Outcome.notFound, s)
  | some t =>
      (Outcome.ok, saveThread s { t with likes := toggleLikes t.likes actor.id now })

/-- The parent-post existence check of `POST /posts` (skipped when no parent is given). -/
def parentOk (parentPostId : Option Nat) (tid : Nat) (s : Store) : Bool :=
  match parentPostId with
  | none => true
  | some pid =>
      (s.posts.find? (fun p => p.id == pid && p.thread == tid && p.isActive)).isSome

/-- Handler `POST /posts`: create a post on a thread, then bump Thread.replyCount and
lastReply, User.postCount of the actor, and Category.postCount of the thread's
category. -/
def createPost (actor : User) (content : String) (threadId : Option Nat)
    (parentPostId : Option Nat) (newId now : Nat) (s : Store) : Outcome × Store :=
  match threadId with
  | none => (Outcome.badRequest, s)
  | some tid =>
    if content = "" then (Outcome.badRequest, s)
    else
      match s.threads.find? (fun t => t.id == tid && t.isActive) with
      | none => (Outcome.notFound, s)
      | some thread =>
        if thread.isLocked then (Outcome.forbidden, s)
        else if parentOk parentPostId tid s = false then (Outcome.notFound, s)
        else
          let post : Post :=
            { id := newId, content := content, author := actor.id,
              thread := tid, parentPost := parentPostId, isActive := true,
              likes := [], isEdited := false, editedAt := none, editHistory := [] }
          let s1 : Store := { s with posts := s.posts ++ [post] }
          let s2 := updThreadDoc s1 tid (fun t =>
            { t with replyCount := t.replyCount + 1,
                     lastReply := { author := some actor.id, createdAt := now } })
          let s3 := updUserDoc s2 actor.id (fun u => { u with postCount := u.postCount + 1 })
          let s4 := updCategoryDoc s3 thread.category
            (fun c => { c with postCount := c.postCount + 1 })
          (Outcome.created, s4)

/-- Handler `PUT /posts/:id`: edit a post. The handler checks only that the actor is
the author (no admin bypass), then appends to editHistory and rewrites content. -/
def updatePost (actor : User) (pid : Nat) (content : String) (now : Nat)
    (s : Store) : Outcome × Store :=
  if content = "" then (Outcome.badRequest, s)
  else
    match s.posts.find? (fun p => p.id == pid && p.isActive) with
    | none => (Outcome.notFound, s)
    | some post =>
      if post.author ≠ actor.id then (Outcome.forbidden, s)
      else
        (Outcome.ok, savePost s { post with
          editHistory := post.editHistory ++ [{ content := post.content, editedAt := now }],
          content := content, isEdited := true, editedAt := some now })

/-- Handler `DELETE /posts/:id`: soft-delete a post (author or admin), then decrement
Thread.replyCount, the author's User.postCount, and the thread's
Category.postCount. The `populate('thread')` lookup has no isActive filter;
a dangling thread reference throws only after the post was saved inactive. -/
def deletePost (actor : User) (pid : Nat) (s : Store) : Outcome × Store :=
  match s.posts.find? (fun p => p.id == pid && p.isActive) with
  | none => (Outcome.notFound, s)
  | some post =>
    let thd := s.threads.find? (fun t => t.id == post.thread)
    if post.author ≠ actor.id ∧ actor.role ≠ Role.admin then (Outcome.forbidden, s)
    else
      let s1 := savePost s { post with isActive := false }
      match thd with
      | none => (Outcome.serverError, s1)
      | some thread =>
        let s2 := updThreadDoc s1 thread.id
          (fun t => { t with replyCount := t.replyCount - 1 })
        let s3 := updUserDoc s2 post.author (fun u => { u with postCount := u.postCount - 1 })
        let s4 := updCategoryDoc s3 thread.category
          (fun c => { c with postCount := c.postCount - 1 })
        (Outcome.ok, s4)

/-- Handler `POST /threads`: create a thread, then bump Category.threadCount and the
actor's User.postCount. -/
def createThread (actor : User) (title content : String) (category : Option Nat)
    (tags : List String) (newId now : Nat) (s : Store) : Outcome × Store :=
  if title = "" ∨ content = "" ∨ category = none then (Outcome.badRequest, s)
  else
    match category with
    | none => (Outcome.badRequest, s)
    | some cid =>
      match s.categories.find? (fun c => c.id == cid && c.isActive) with
      | none => (Outcome.badRequest, s)
      | some _ =>
        let t : Thread :=
          { id := newId, title := title, content := content,
            author := actor.id, category := cid, isPinned := false, isLocked := false,
            isActive := true, views := 0, replyCount := 0,
            lastReply := { author := none, createdAt := now }, tags := tags, likes := [] }
        let s1 : Store := { s with threads := s.threads ++ [t] }
        let s2 := updCategoryDoc s1 cid (fun c => { c with threadCount := c.threadCount + 1 })
        let s3 := updUserDoc s2 actor.id (fun u => { u with postCount := u.postCount + 1 })
        (Outcome.created, s3)

/-- Handler `PUT /threads/:id`: edit a thread (author or admin); JS falsy checks mean
an empty title/content leaves the field unchanged, while tags are set whenever
present. -/
def updateThreadRoute (actor : User) (tid : Nat) (title content : String)
    (tags : Option (List String)) (s : Store) : Outcome × Store :=
  match s.threads.find? (fun t => t.id == tid && t.isActive) with
  | none => (Outcome.notFound, s)
  | some t =>
    if t.author ≠ actor.id ∧ actor.role ≠ Role.admin then (Outcome.forbidden, s)
    else
      let t1 := if title = "" then t else { t with title := title }
      let t2 := if content = "" then t1 else { t1 with content := content }
      let t3 := match tags with
        | none => t2
        | some ts => { t2 with tags := ts }
      (Outcome.ok, saveThread s t3)

/-- Handler `DELETE /threads/:id`: soft-delete a thread (author or admin), then
decrement Category.threadCount. -/
def deleteThread (actor : User) (tid : Nat) (s : Store) : Outcome × Store :=
  match s.threads.find? (fun t => t.id == tid && t.isActive) with
  | none => (Outcome.notFound, s)
  | some t =>
    if t.author ≠ actor.id ∧ actor.role ≠ Role.admin then (Outcome.forbidden, s)
    else
      let s1 := saveThread s { t with isActive := false }
      (Outcome.ok,
        updCategoryDoc s1 t.category (fun c => { c with threadCount := c.threadCount - 1 }))

structure Pagination where
  currentPage : Nat
  totalPages : Nat
  totalItems : Nat
  hasNext : Bool
  hasPrev : Bool
  deriving DecidableEq, Repr

/-- The pagination envelope shared by the list endpoints:
`totalPages = Math.ceil(total/limit)`, `hasNext = page < totalPages`,
`hasPrev = page > 1`. -/
def paginationOf (page limit total : Nat) : Pagination :=
  { currentPage := page
    totalPages := (total + limit - 1) / limit
    totalItems := total
    hasNext := decide (page < (total + limit - 1) / limit)
    hasPrev := decide (1 < page) }

structure ThreadDetailResp where
  thread : Thread
  hasLiked : Bool
  likeCount : Nat
  deriving DecidableEq, Repr

structure PostResp where
  post : Post
  hasLiked : Bool
  likeCount : Nat
  deriving DecidableEq, Repr

/-- Handler `GET /threads/:id` (optional auth): `findOneAndUpdate` increments views and
returns the updated document; `hasLiked` is computed from the optional actor. -/
def getThread (actor : Option User) (tid : Nat) (s : Store) :
    Outcome × Option ThreadDetailResp × Store :=
  match s.threads.find? (fun t => t.id == tid && t.isActive) with
  | none => (Outcome.notFound, none, s)
  | some t =>
    let t2 : Thread := { t with views := t.views + 1 }
    let hl : Bool := match actor with
      | some u => t2.likes.any (fun l => l.user == u.id)
      | none => false
    (Outcome.ok, some { thread := t2, hasLiked := hl, likeCount := t2.likes.length },
      saveThread s t2)

/-- Handler `GET /posts/thread/:threadId` (optional auth): page through the active
posts of a thread in creation order; read-only. -/
def getPostsForThread (actor : Option User) (tid page limit : Nat) (s : Store) :
    Outcome × Option (List PostResp × Pagination) × Store :=
  match s.threads.find? (fun t => t.id == tid && t.isActive) with
  | none => (Outcome.notFound, none, s)
  | some _ =>
    let matching := s.posts.filter (fun p => p.thread == tid && p.isActive)
    let pageItems := (matching.drop ((page - 1) * limit)).take limit
    let resp := pageItems.map (fun p =>
      { post := p
        hasLiked := match actor with
          | some u => p.likes.any (fun l => l.user == u.id)
          | none => false
        likeCount := p.likes.length : PostResp })
    (Outcome.ok, some (resp, paginationOf page limit matching.length), s)

/-! Concrete sample documents, used to evaluate the handlers on closed inputs. -/

def exUserA : User := { id := 1, role := Role.user, postCount := 5, isActive := true }

def exAdmin : User := { id := 2, role := Role.admin, postCount := 3, isActive := true }

def exUserC : User := { id := 3, role := Role.user, postCount := 0, isActive := true }

def exCat : Category :=
  { id := 10, name := "General", isActive := true, threadCount := 1, postCount := 1, order := 0 }

def exCat2 : Category :=
  { id := 11, name := "Off topic", isActive := true, threadCount := 0, postCount := 0, order := 1 }

def exThread : Thread :=
  { id := 20, title := "Welcome", content := "hello", author := 1, category := 10,
    isPinned := false, isLocked := false, isActive := true, views := 4, replyCount := 1,
    lastReply := { author := some 1, createdAt := 9 }, tags := [],
    likes := [{ user := 3, createdAt := 2 }] }

def exLocked : Thread :=
  { id := 21, title := "Rules", content := "read me", author := 2, category := 10,
    isPinned := true, isLocked := true, isActive := true, views := 7, replyCount := 0,
    lastReply := { author := none, createdAt := 0 }, tags := [], likes := [] }

def exPost : Post :=
  { id := 30, content := "first reply", author := 1, thread := 20, parentPost := none,
    isActive := true, likes := [{ user := 3, createdAt := 5 }], isEdited := false,
    editedAt := none, editHistory := [] }

def exStore : Store :=
  { users := [exUserA, exAdmin, exUserC], categories := [exCat, exCat2],
    threads := [exThread, exLocked], posts := [exPost] }

/-! Generic lemmas about `find?` over keyed document collections. -/

/-- The lookup `find?` commutes with a map that does not change the predicate's verdict. -/
theorem find?_map_of_pred_inv {α : Type} (g : α → α) (p : α → Bool)
    (h : ∀ a, p (g a) = p a) (l : List α) :
    (l.map g).find? p = (l.find? p).map g := by
  induction l with
  | nil => rfl
  | cons a l ih =>
    by_cases hpa : p a = true
    · rw [List.map_cons, List.find?_cons_of_pos _ ((h a).trans hpa),
        List.find?_cons_of_pos _ hpa, Option.map_some']
    · rw [List.map_cons, List.find?_cons_of_neg _ (by simp [(h a).trans, hpa]),
        List.find?_cons_of_neg _ (by simp [hpa]), ih]

/-- A keyed `findByIdAndUpdate` is observed by a lookup at the same key as
mapping the update over the lookup's result. -/
theorem find?_keyed_upd {α : Type} (key : α → Nat) (f : α → α) (l : List α)
    (hf : ∀ a, key (f a) = key a) (k : Nat) :
    (l.map (fun a => if key a == k then f a else a)).find? (fun a => key a == k)
      = (l.find? (fun a => key a == k)).map f := by
  rw [find?_map_of_pred_inv _ _ (fun a => by by_cases h : (key a == k) = true <;> simp [h, hf])]
  cases hfind : l.find? (fun a => key a == k) with
  | none => rfl
  | some a =>
    have hpa := List.find?_some hfind
    simp only [Option.map_some']
    simp only at hpa
    rw [if_pos hpa]

/-- A keyed `findByIdAndUpdate` leaves lookups at every other key unchanged. -/
theorem find?_keyed_upd_other {α : Type} (key : α → Nat) (f : α → α) (l : List α)
    (hf : ∀ a, key (f a) = key a) (k x : Nat) (hx : x ≠ k) :
    (l.map (fun a => if key a == k then f a else a)).find? (fun a => key a == x)
      = l.find? (fun a => key a == x) := by
  rw [find?_map_of_pred_inv _ _ (fun a => by by_cases h : (key a == k) = true <;> simp [h, hf])]
  cases hfind : l.find? (fun a => key a == x) with
  | none => rfl
  | some a =>
    have hpa := List.find?_some hfind
    simp only [Option.map_some']
    simp only [beq_iff_eq] at hpa
    rw [if_neg (by simp [hpa, hx])]

/-- A `document.save()` (write-back by `_id`) is observed by the `findOne`
returning that document as replacing the result, provided ids are unique. -/
theorem find?_replace_nodup {α : Type} (key : α → Nat) (p : α → Bool) (a b : α)
    (l : List α) (hnd : (l.map key).Nodup) (hfind : l.find? p = some a)
    (hkb : key b = key a) (hpb : p b = true) :
    (l.map (fun c => if key c == key a then b else c)).find? p = some b := by
  induction l with
  | nil => simp at hfind
  | cons c l ih =>
    rw [List.map_cons, List.nodup_cons] at hnd
    by_cases hpc : p c = true
    · rw [List.find?_cons_of_pos _ hpc] at hfind
      injection hfind with ha
      subst ha
      rw [List.map_cons, if_pos (by simp)]
      exact List.find?_cons_of_pos _ hpb
    · rw [List.find?_cons_of_neg _ (by simp [hpc])] at hfind
      have hmem : a ∈ l := List.mem_of_find?_eq_some hfind
      have hkca : key c ≠ key a := fun he => hnd.1 (he ▸ List.mem_map_of_mem key hmem)
      rw [List.map_cons, if_neg (by simp [hkca])]
      rw [List.find?_cons_of_neg _ (by simp [hpc])]
      exact ih hnd.2 hfind

/-- Replacing a document by one with the same key keeps the collection's key
multiset; in particular key-uniqueness survives a `save()`. -/
theorem map_key_replace {α : Type} (key : α → Nat) (b : α) (l : List α) (k : Nat)
    (hkb : key b = k) :
    (l.map (fun c => if key c == k then b else c)).map key = l.map key := by
  rw [List.map_map]
  refine List.map_congr_left (fun a _ => ?_)
  by_cases h : (key a == k) = true
  · simp only [Function.comp, h, if_pos]
    simp only [beq_iff_eq] at h
    rw [hkb, h]
  · simp [Function.comp, h]

/-! Lemmas about the like-toggle. -/

/-- When the user is not yet in the array, toggling twice restores it exactly. -/
theorem toggleLikes_twice_of_not_liked (likes : List LikeEntry) (u n1 n2 : Nat)
    (h : likes.any (fun l => l.user == u) = false) :
    toggleLikes (toggleLikes likes u n1) u n2 = likes := by
  have h1 : toggleLikes likes u n1 = likes ++ [{ user := u, createdAt := n1 }] := by
    simp [toggleLikes, h]
  have h2 : (likes ++ [({ user := u, createdAt := n1 } : LikeEntry)]).any
      (fun l => l.user == u) = true := by
    simp
  rw [h1, toggleLikes, if_pos h2, List.filter_append]
  have h3 : List.filter (fun l => l.user != u) [({ user := u, createdAt := n1 } : LikeEntry)]
      = [] := by simp
  rw [h3, List.append_nil, List.filter_eq_self.mpr]
  intro a ha
  have := List.any_eq_false.mp h a ha
  simpa using this

/-- When the user is already in the array, toggling twice removes the old
entries and appends a fresh one for the same user. -/
theorem toggleLikes_twice_of_liked (likes : List LikeEntry) (u n1 n2 : Nat)
    (h : likes.any (fun l => l.user == u) = true) :
    toggleLikes (toggleLikes likes u n1) u n2
      = likes.filter (fun l => l.user != u) ++ [{ user := u, createdAt := n2 }] := by
  have h1 : toggleLikes likes u n1 = likes.filter (fun l => l.user != u) := by
    simp [toggleLikes, h]
  have h2 : (likes.filter (fun l => l.user != u)).any (fun l => l.user == u) = false := by
    rw [List.any_eq_false]
    intro x hx
    have := (List.mem_filter.mp hx).2
    simp at this
    simp [this]
  rw [h1, toggleLikes, if_neg (by simp [h2])]

/-- Removing a present user's entries shortens a duplicate-free array by one. -/
theorem filter_out_length_of_nodup (likes : List LikeEntry) (u : Nat)
    (hnd : (likes.map LikeEntry.user).Nodup)
    (h : likes.any (fun l => l.user == u) = true) :
    (likes.filter (fun l => l.user != u)).length + 1 = likes.length := by
  induction likes with
  | nil => simp at h
  | cons e l ih =>
    rw [List.map_cons, List.nodup_cons] at hnd
    by_cases he : e.user = u
    · rw [List.filter_cons_of_neg (by simp [he])]
      rw [List.filter_eq_self.mpr]
      · simp
      · intro a ha
        have : a.user ≠ u := fun hau => hnd.1 (by
          rw [he, ← hau]; exact List.mem_map_of_mem LikeEntry.user ha)
        simp [this]
    · rw [List.filter_cons_of_pos (by simp [he])]
      have hl : l.any (fun x => x.user == u) = true := by
        rcases List.any_eq_true.mp h with ⟨x, hx, hxu⟩
        rcases List.mem_cons.mp hx with rfl | hxl
        · exact absurd (by simpa using hxu) he
        · exact List.any_eq_true.mpr ⟨x, hxl, hxu⟩
      have := ih hnd.2 hl
      simp only [List.length_cons]
      omega

/-- Double toggle preserves the set of liker ids (no uniqueness needed). -/
theorem toggleLikes_twice_mem (likes : List LikeEntry) (u n1 n2 x : Nat) :
    x ∈ (toggleLikes (toggleLikes likes u n1) u n2).map LikeEntry.user
      ↔ x ∈ likes.map LikeEntry.user := by
  by_cases h : likes.any (fun l => l.user == u) = true
  · rw [toggleLikes_twice_of_liked likes u n1 n2 h]
    by_cases hx : x = u
    · subst hx
      rcases List.any_eq_true.mp h with ⟨e, he, heu⟩
      simp only [beq_iff_eq] at heu
      simp only [List.map_append, List.mem_append, List.map_cons, List.map_nil]
      constructor
      · intro _; exact heu ▸ List.mem_map_of_mem LikeEntry.user he
      · intro _; right; simp
    · simp only [List.map_append, List.mem_append, List.map_cons, List.map_nil,
        List.mem_singleton, List.mem_map, List.mem_filter]
      constructor
      · rintro (⟨e, ⟨hel, _⟩, rfl⟩ | hx2)
        · exact ⟨e, hel, rfl⟩
        · exact absurd hx2 hx
      · rintro ⟨e, hel, rfl⟩
        left
        exact ⟨e, ⟨hel, by simp [hx]⟩, rfl⟩
  · rw [toggleLikes_twice_of_not_liked likes u n1 n2 (by simpa using h)]

/-- Double toggle preserves the length of a duplicate-free like array. -/
theorem toggleLikes_twice_length (likes : List LikeEntry) (u n1 n2 : Nat)
    (hnd : (likes.map LikeEntry.user).Nodup) :
    (toggleLikes (toggleLikes likes u n1) u n2).length = likes.length := by
  by_cases h : likes.any (fun l => l.user == u) = true
  · rw [toggleLikes_twice_of_liked likes u n1 n2 h]
    rw [List.length_append]
    have := filter_out_length_of_nodup likes u hnd h
    simp only [List.length_cons, List.length_nil]
    omega
  · rw [toggleLikes_twice_of_not_liked likes u n1 n2 (by simpa using h)]

/-! Projection lemmas: which collections each write helper touches. -/

@[simp] theorem users_updUserDoc (s : Store) (x : Nat) (f : User → User) :
    (updUserDoc s x f).users = s.users.map (fun u => if u.id == x then f u else u) := rfl

@[simp] theorem categories_updUserDoc (s : Store) (x : Nat) (f : User → User) :
    (updUserDoc s x f).categories = s.categories := rfl

@[simp] theorem threads_updUserDoc (s : Store) (x : Nat) (f : User → User) :
    (updUserDoc s x f).threads = s.threads := rfl

@[simp] theorem posts_updUserDoc (s : Store) (x : Nat) (f : User → User) :
    (updUserDoc s x f).posts = s.posts := rfl

@[simp] theorem users_updCategoryDoc (s : Store) (x : Nat) (f : Category → Category) :
    (updCategoryDoc s x f).users = s.users := rfl

@[simp] theorem categories_updCategoryDoc (s : Store) (x : Nat) (f : Category → Category) :
    (updCategoryDoc s x f).categories
      = s.categories.map (fun c => if c.id == x then f c else c) := rfl

@[simp] theorem threads_updCategoryDoc (s : Store) (x : Nat) (f : Category → Category) :
    (updCategoryDoc s x f).threads = s.threads := rfl

@[simp] theorem posts_updCategoryDoc (s : Store) (x : Nat) (f : Category → Category) :
    (updCategoryDoc s x f).posts = s.posts := rfl

@[simp] theorem users_updThreadDoc (s : Store) (x : Nat) (f : Thread → Thread) :
    (updThreadDoc s x f).users = s.users := rfl

@[simp] theorem categories_updThreadDoc (s : Store) (x : Nat) (f : Thread → Thread) :
    (updThreadDoc s x f).categories = s.categories := rfl

@[simp] theorem threads_updThreadDoc (s : Store) (x : Nat) (f : Thread → Thread) :
    (updThreadDoc s x f).threads = s.threads.map (fun t => if t.id == x then f t else t) := rfl

@[simp] theorem posts_updThreadDoc (s : Store) (x : Nat) (f : Thread → Thread) :
    (updThreadDoc s x f).posts = s.posts := rfl

@[simp] theorem users_savePost (s : Store) (p : Post) : (savePost s p).users = s.users := rfl

@[simp] theorem categories_savePost (s : Store) (p : Post) :
    (savePost s p).categories = s.categories := rfl

@[simp] theorem threads_savePost (s : Store) (p : Post) :
    (savePost s p).threads = s.threads := rfl

@[simp] theorem posts_savePost (s : Store) (p : Post) :
    (savePost s p).posts = s.posts.map (fun q => if q.id == p.id then p else q) := rfl

@[simp] theorem users_saveThread (s : Store) (t : Thread) :
    (saveThread s t).users = s.users := rfl

@[simp] theorem categories_saveThread (s : Store) (t : Thread) :
    (saveThread s t).categories = s.categories := rfl

@[simp] theorem threads_saveThread (s : Store) (t : Thread) :
    (saveThread s t).threads = s.threads.map (fun q => if q.id == t.id then t else q) := rfl

@[simp] theorem posts_saveThread (s : Store) (t : Thread) :
    (saveThread s t).posts = s.posts := rfl

/-! Explicit success-path equations for the mutating handlers. -/

/-- On the success path, `DELETE /posts/:id` soft-deletes the post and issues
the three decrements, in handler order. -/
theorem deletePost_run (actor : User) (pid : Nat) (s : Store) (post : Post) (thread : Thread)
    (hp : s.posts.find? (fun p => p.id == pid && p.isActive) = some post)
    (ht : s.threads.find? (fun t => t.id == post.thread) = some thread)
    (hz : post.author = actor.id ∨ actor.role = Role.admin) :
    deletePost actor pid s
      = (Outcome.ok,
          updCategoryDoc
            (updUserDoc
              (updThreadDoc (savePost s { post with isActive := false }) thread.id
                (fun t => { t with replyCount := t.replyCount - 1 }))
              post.author (fun u => { u with postCount := u.postCount - 1 }))
            thread.category (fun c => { c with postCount := c.postCount - 1 })) := by
  have hnz : ¬(post.author ≠ actor.id ∧ actor.role ≠ Role.admin) := by tauto
  simp only [deletePost, hp, ht, hnz, if_false, ite_false, if_neg, not_false_iff]

/-- On the success path, `POST /posts` appends the new post document and issues
the three increments plus the lastReply rewrite, in handler order. -/
theorem createPost_run (actor : User) (content : String) (tid : Nat) (pp : Option Nat)
    (newId now : Nat) (s : Store) (thread : Thread)
    (hc : content ≠ "")
    (ht : s.threads.find? (fun t => t.id == tid && t.isActive) = some thread)
    (hl : thread.isLocked = false)
    (hpar : parentOk pp tid s = true) :
    createPost actor content (some tid) pp newId now s
      = (Outcome.created,
          updCategoryDoc
            (updUserDoc
              (updThreadDoc
                { s with posts := s.posts ++
                    [{ id := newId, content := content,
                       author := actor.id, thread := tid, parentPost := pp, isActive := true,
                       likes := [], isEdited := false, editedAt := none,
                       editHistory := [] }] }
                tid (fun t =>
                  { t with replyCount := t.replyCount + 1,
                           lastReply := { author := some actor.id, createdAt := now } }))
              actor.id (fun u => { u with postCount := u.postCount + 1 }))
            thread.category (fun c => { c with postCount := c.postCount + 1 })) := by
  simp [createPost, hc, ht, hl, hpar]

/-- On the success path, `POST /threads` appends the new thread document and
issues the two increments, in handler order. -/
theorem createThread_run (actor : User) (title content : String) (cid : Nat)
    (tags : List String) (newId now : Nat) (s : Store) (cat : Category)
    (hT : title ≠ "") (hC : content ≠ "")
    (hc : s.categories.find? (fun c => c.id == cid && c.isActive) = some cat) :
    createThread actor title content (some cid) tags newId now s
      = (Outcome.created,
          updUserDoc
            (updCategoryDoc
              { s with threads := s.threads ++
                  [{ id := newId, title := title,
                     content := content, author := actor.id, category := cid,
                     isPinned := false, isLocked := false, isActive := true, views := 0,
                     replyCount := 0, lastReply := { author := none, createdAt := now },
                     tags := tags, likes := [] }] }
              cid (fun c => { c with threadCount := c.threadCount + 1 }))
            actor.id (fun u => { u with postCount := u.postCount + 1 })) := by
  simp [createThread, hT, hC, hc]

/-- Claim C6: attempting to create a Post on a thread whose isLocked flag is
true yields FORBIDDEN and leaves the store untouched — no post document is
created and no counter or lastReply field changes. -/
theorem createPost_locked_rejected
    (actor : User) (content : String) (tid newId now : Nat) (pp : Option Nat)
    (s : Store) (thread : Thread)
    (hc : content ≠ "")
    (ht : s.threads.find? (fun t => t.id == tid && t.isActive) = some thread)
    (hl : thread.isLocked = true) :
    createPost actor content (some tid) pp newId now s = (Outcome.forbidden, s) := by
  simp [createPost, hc, ht, hl]

/-- Witness for C6: a concrete rejected post creation on the locked thread. -/
theorem createPost_locked_rejected_witness :
    ("hey" : String) ≠ "" ∧
    exStore.threads.find? (fun t => t.id == 21 && t.isActive) = some exLocked ∧
    exLocked.isLocked = true ∧
    createPost exUserA "hey" (some 21) none 31 9 exStore = (Outcome.forbidden, exStore) :=
  ⟨by decide, by decide, by decide,
    createPost_locked_rejected exUserA "hey" 21 31 9 none exStore exLocked
      (by decide) (by decide) (by decide)⟩

/-- Claim C8: the at-most-one-like-per-user invariant is preserved by the
like-toggle operation used by both the post and thread like endpoints. -/
theorem likes_unique_preserved (likes : List LikeEntry) (u now : Nat)
    (hnd : (likes.map LikeEntry.user).Nodup) :
    ((toggleLikes likes u now).map LikeEntry.user).Nodup := by
  unfold toggleLikes
  by_cases h : likes.any (fun l => l.user == u) = true
  · rw [if_pos h]
    exact hnd.sublist ((likes.filter_sublist).map LikeEntry.user)
  · rw [if_neg h]
    rw [List.map_append]
    rw [List.nodup_append]
    refine ⟨hnd, by simp, ?_⟩
    intro a ha hb
    simp only [List.map_cons, List.map_nil, List.mem_singleton] at hb
    have h' : ∀ x ∈ likes, ¬ x.user = u := by simpa using h
    rcases List.mem_map.mp ha with ⟨e, he, heu⟩
    exact h' e he (heu.trans hb)

/-- Witness for C8: toggling a like on a concrete duplicate-free array. -/
theorem likes_unique_preserved_witness :
    (exPost.likes.map LikeEntry.user).Nodup ∧
    ((toggleLikes exPost.likes 1 9).map LikeEntry.user).Nodup :=
  ⟨by decide, likes_unique_preserved exPost.likes 1 9 (by decide)⟩

/-- Ceiling-division bound underlying the pagination contract. -/
theorem page_lt_ceil_iff (a l n : Nat) : a < (n + l) / (l + 1) ↔ a * (l + 1) < n := by
  rw [Nat.lt_iff_add_one_le, Nat.le_div_iff_mul_le (Nat.succ_pos l), Nat.add_mul, Nat.one_mul]
  generalize a * (l + 1) = m
  omega

/-- Claim C7: for page p+1 ≥ 1 and limit l+1 ≥ 1 over n matching items, the
pagination object has currentPage = p+1, hasPrev ⇔ page > 1,
hasNext ⇔ page*limit < n, and totalPages is the least k with n ≤ k*limit,
i.e. ceil(n/limit). -/
theorem pagination_contract (p l n k : Nat) :
    (paginationOf (p + 1) (l + 1) n).currentPage = p + 1 ∧
    (paginationOf (p + 1) (l + 1) n).hasPrev = decide (1 < p + 1) ∧
    (paginationOf (p + 1) (l + 1) n).hasNext = decide ((p + 1) * (l + 1) < n) ∧
    ((paginationOf (p + 1) (l + 1) n).totalPages ≤ k ↔ n ≤ k * (l + 1)) := by
  have hcl : n + (l + 1) - 1 = n + l := by omega
  refine ⟨rfl, rfl, ?_, ?_⟩
  · simp only [paginationOf, hcl]
    exact decide_eq_decide.mpr (page_lt_ceil_iff (p + 1) l n)
  · simp only [paginationOf, hcl]
    have h1 := page_lt_ceil_iff k l n
    constructor
    · intro hD
      by_contra hcon
      push_neg at hcon
      exact absurd (h1.mpr hcon) (Nat.not_lt.mpr hD)
    · intro hn
      by_contra hcon
      push_neg at hcon
      exact absurd (h1.mp hcon) (Nat.not_lt.mpr hn)

/-- Claim C9: on the same store, a GET with an authenticated actor and a GET
without one return the same outcome, the same store (including the views
increment on thread detail), and responses equal in everything except the
hasLiked field(s). -/
theorem optional_actor_read_equiv (u : User) (tid tid2 page limit : Nat) (s : Store) :
    (getThread (some u) tid s).1 = (getThread none tid s).1 ∧
    (getThread (some u) tid s).2.2 = (getThread none tid s).2.2 ∧
    ((getThread (some u) tid s).2.1).map (fun r => (r.thread, r.likeCount))
      = ((getThread none tid s).2.1).map (fun r => (r.thread, r.likeCount)) ∧
    (getPostsForThread (some u) tid2 page limit s).1
      = (getPostsForThread none tid2 page limit s).1 ∧
    (getPostsForThread (some u) tid2 page limit s).2.2 = s ∧
    (getPostsForThread none tid2 page limit s).2.2 = s ∧
    ((getPostsForThread (some u) tid2 page limit s).2.1).map
        (fun r => (r.1.map (fun pr => (pr.post, pr.likeCount)), r.2))
      = ((getPostsForThread none tid2 page limit s).2.1).map
          (fun r => (r.1.map (fun pr => (pr.post, pr.likeCount)), r.2)) := by
  refine ⟨?_, ?_, ?_, ?_, ?_, ?_, ?_⟩ <;>
    first
      | (cases hft : s.threads.find? (fun t => t.id == tid && t.isActive) <;>
          simp [getThread, hft] <;> done)
      | (cases hft2 : s.threads.find? (fun t => t.id == tid2 && t.isActive) <;>
          simp [getPostsForThread, hft2] <;> done)
      | (cases hft2 : s.threads.find? (fun t => t.id == tid2 && t.isActive) <;>
          simp only [getPostsForThread, hft2, Option.map_some', Option.map_none',
            List.map_map, Function.comp_def] <;> rfl)

/-! Specialised lookup/update lemmas for each collection. -/

theorem find?_upd_thread (l : List Thread) (f : Thread → Thread)
    (hf : ∀ t, (f t).id = t.id) (k : Nat) :
    (l.map (fun t => if t.id == k then f t else t)).find? (fun t => t.id == k)
      = (l.find? (fun t => t.id == k)).map f :=
  find?_keyed_upd (fun t => t.id) f l hf k

theorem find?_upd_thread_other (l : List Thread) (f : Thread → Thread)
    (hf : ∀ t, (f t).id = t.id) (k x : Nat) (hx : x ≠ k) :
    (l.map (fun t => if t.id == k then f t else t)).find? (fun t => t.id == x)
      = l.find? (fun t => t.id == x) :=
  find?_keyed_upd_other (fun t => t.id) f l hf k x hx

theorem find?_upd_user (l : List User) (f : User → User)
    (hf : ∀ u, (f u).id = u.id) (k : Nat) :
    (l.map (fun u => if u.id == k then f u else u)).find? (fun u => u.id == k)
      = (l.find? (fun u => u.id == k)).map f :=
  find?_keyed_upd (fun u => u.id) f l hf k

theorem find?_upd_user_other (l : List User) (f : User → User)
    (hf : ∀ u, (f u).id = u.id) (k x : Nat) (hx : x ≠ k) :
    (l.map (fun u => if u.id == k then f u else u)).find? (fun u => u.id == x)
      = l.find? (fun u => u.id == x) :=
  find?_keyed_upd_other (fun u => u.id) f l hf k x hx

theorem find?_upd_cat (l : List Category) (f : Category → Category)
    (hf : ∀ c, (f c).id = c.id) (k : Nat) :
    (l.map (fun c => if c.id == k then f c else c)).find? (fun c => c.id == k)
      = (l.find? (fun c => c.id == k)).map f :=
  find?_keyed_upd (fun c => c.id) f l hf k

theorem find?_upd_cat_other (l : List Category) (f : Category → Category)
    (hf : ∀ c, (f c).id = c.id) (k x : Nat) (hx : x ≠ k) :
    (l.map (fun c => if c.id == k then f c else c)).find? (fun c => c.id == x)
      = l.find? (fun c => c.id == x) :=
  find?_keyed_upd_other (fun c => c.id) f l hf k x hx

/-- Claim C1: a successful soft-delete of an active Post applies exactly the
three decrements — Thread.replyCount, author's User.postCount, and the parent
thread's Category.postCount — leaves lastReply untouched, and changes no other
thread, user, or category. -/
theorem deletePost_counter_updates
    (actor : User) (pid : Nat) (s : Store) (post : Post) (thread : Thread)
    (tx ux cx : Nat)
    (hp : s.posts.find? (fun p => p.id == pid && p.isActive) = some post)
    (ht : s.threads.find? (fun t => t.id == post.thread) = some thread)
    (hz : post.author = actor.id ∨ actor.role = Role.admin)
    (htx : tx ≠ thread.id) (hux : ux ≠ post.author) (hcx : cx ≠ thread.category) :
    (deletePost actor pid s).1 = Outcome.ok ∧
    Store.threadById (deletePost actor pid s).2 thread.id
      = (Store.threadById s thread.id).map
          (fun t => { t with replyCount := t.replyCount - 1 }) ∧
    (Store.threadById (deletePost actor pid s).2 thread.id).map (fun t => t.lastReply)
      = (Store.threadById s thread.id).map (fun t => t.lastReply) ∧
    Store.userById (deletePost actor pid s).2 post.author
      = (Store.userById s post.author).map
          (fun u => { u with postCount := u.postCount - 1 }) ∧
    Store.categoryById (deletePost actor pid s).2 thread.category
      = (Store.categoryById s thread.category).map
          (fun c => { c with postCount := c.postCount - 1 }) ∧
    Store.threadById (deletePost actor pid s).2 tx = Store.threadById s tx ∧
    Store.userById (deletePost actor pid s).2 ux = Store.userById s ux ∧
    Store.categoryById (deletePost actor pid s).2 cx = Store.categoryById s cx := by
  rw [deletePost_run actor pid s post thread hp ht hz]
  simp only [Store.threadById, Store.userById, Store.categoryById,
    threads_updCategoryDoc, threads_updUserDoc, threads_updThreadDoc, threads_savePost,
    users_updCategoryDoc, users_updUserDoc, users_updThreadDoc, users_savePost,
    categories_updCategoryDoc, categories_updUserDoc, categories_updThreadDoc,
    categories_savePost]
  refine ⟨trivial, ?_, ?_, ?_, ?_, ?_, ?_, ?_⟩
  · exact find?_upd_thread s.threads
      (fun t => { t with replyCount := t.replyCount - 1 }) (fun t => rfl) thread.id
  · rw [find?_upd_thread s.threads (fun t => { t with replyCount := t.replyCount - 1 })
      (fun t => rfl) thread.id]
    cases s.threads.find? (fun t => t.id == thread.id) <;> rfl
  · exact find?_upd_user s.users
      (fun u => { u with postCount := u.postCount - 1 }) (fun u => rfl) post.author
  · exact find?_upd_cat s.categories
      (fun c => { c with postCount := c.postCount - 1 }) (fun c => rfl) thread.category
  · exact find?_upd_thread_other s.threads
      (fun t => { t with replyCount := t.replyCount - 1 }) (fun t => rfl) thread.id tx htx
  · exact find?_upd_user_other s.users
      (fun u => { u with postCount := u.postCount - 1 }) (fun u => rfl) post.author ux hux
  · exact find?_upd_cat_other s.categories
      (fun c => { c with postCount := c.postCount - 1 }) (fun c => rfl) thread.category cx hcx

/-- Witness for C1: the admin soft-deletes the concrete post. -/
theorem deletePost_counter_updates_witness :
    exStore.posts.find? (fun p => p.id == 30 && p.isActive) = some exPost ∧
    exStore.threads.find? (fun t => t.id == exPost.thread) = some exThread ∧
    (exPost.author = exAdmin.id ∨ exAdmin.role = Role.admin) ∧
    (99 : Nat) ≠ exThread.id ∧ (98 : Nat) ≠ exPost.author ∧ (97 : Nat) ≠ exThread.category ∧
    ((deletePost exAdmin 30 exStore).1 = Outcome.ok ∧
      Store.threadById (deletePost exAdmin 30 exStore).2 exThread.id
        = (Store.threadById exStore exThread.id).map
            (fun t => { t with replyCount := t.replyCount - 1 }) ∧
      (Store.threadById (deletePost exAdmin 30 exStore).2 exThread.id).map
          (fun t => t.lastReply)
        = (Store.threadById exStore exThread.id).map (fun t => t.lastReply) ∧
      Store.userById (deletePost exAdmin 30 exStore).2 exPost.author
        = (Store.userById exStore exPost.author).map
            (fun u => { u with postCount := u.postCount - 1 }) ∧
      Store.categoryById (deletePost exAdmin 30 exStore).2 exThread.category
        = (Store.categoryById exStore exThread.category).map
            (fun c => { c with postCount := c.postCount - 1 }) ∧
      Store.threadById (deletePost exAdmin 30 exStore).2 99
        = Store.threadById exStore 99 ∧
      Store.userById (deletePost exAdmin 30 exStore).2 98 = Store.userById exStore 98 ∧
      Store.categoryById (deletePost exAdmin 30 exStore).2 97
        = Store.categoryById exStore 97) :=
  ⟨by decide, by decide, by decide, by decide, by decide, by decide,
    deletePost_counter_updates exAdmin 30 exStore exPost exThread 99 98 97
      (by decide) (by decide) (by decide) (by decide) (by decide) (by decide)⟩

/-- Claim C10: the postCount decrement of a soft-delete is applied to the
post's author; a deleting admin who is not the author is untouched. -/
theorem deletePost_decrements_author
    (actor : User) (pid : Nat) (s : Store) (post : Post) (thread : Thread)
    (hp : s.posts.find? (fun p => p.id == pid && p.isActive) = some post)
    (ht : s.threads.find? (fun t => t.id == post.thread) = some thread)
    (hrole : actor.role = Role.admin) (hne : actor.id ≠ post.author) :
    (deletePost actor pid s).1 = Outcome.ok ∧
    Store.userById (deletePost actor pid s).2 post.author
      = (Store.userById s post.author).map
          (fun u => { u with postCount := u.postCount - 1 }) ∧
    Store.userById (deletePost actor pid s).2 actor.id = Store.userById s actor.id := by
  rw [deletePost_run actor pid s post thread hp ht (Or.inr hrole)]
  simp only [Store.userById, users_updCategoryDoc, users_updUserDoc, users_updThreadDoc,
    users_savePost]
  refine ⟨trivial, ?_, ?_⟩
  · exact find?_upd_user s.users
      (fun u => { u with postCount := u.postCount - 1 }) (fun u => rfl) post.author
  · exact find?_upd_user_other s.users
      (fun u => { u with postCount := u.postCount - 1 }) (fun u => rfl) post.author
      actor.id hne

/-- Witness for C10: the admin (id 2) deletes the post of user 1. -/
theorem deletePost_decrements_author_witness :
    exStore.posts.find? (fun p => p.id == 30 && p.isActive) = some exPost ∧
    exStore.threads.find? (fun t => t.id == exPost.thread) = some exThread ∧
    exAdmin.role = Role.admin ∧ exAdmin.id ≠ exPost.author ∧
    ((deletePost exAdmin 30 exStore).1 = Outcome.ok ∧
      Store.userById (deletePost exAdmin 30 exStore).2 exPost.author
        = (Store.userById exStore exPost.author).map
            (fun u => { u with postCount := u.postCount - 1 }) ∧
      Store.userById (deletePost exAdmin 30 exStore).2 exAdmin.id
        = Store.userById exStore exAdmin.id) :=
  ⟨by decide, by decide, by decide, by decide,
    deletePost_decrements_author exAdmin 30 exStore exPost exThread
      (by decide) (by decide) (by decide) (by decide)⟩

/-- Claim C5: a successful Thread creation in category C bumps C's threadCount
by one and the creator's postCount by one, and leaves every other category
(both its threadCount and postCount) unchanged. -/
theorem createThread_counts
    (actor : User) (title content : String) (cid newId now : Nat) (tags : List String)
    (s : Store) (cat : Category) (cx : Nat)
    (hT : title ≠ "") (hC : content ≠ "")
    (hc : s.categories.find? (fun c => c.id == cid && c.isActive) = some cat)
    (hcx : cx ≠ cid) :
    (createThread actor title content (some cid) tags newId now s).1 = Outcome.created ∧
    Store.categoryById (createThread actor title content (some cid) tags newId now s).2 cid
      = (Store.categoryById s cid).map
          (fun c => { c with threadCount := c.threadCount + 1 }) ∧
    Store.userById (createThread actor title content (some cid) tags newId now s).2 actor.id
      = (Store.userById s actor.id).map (fun u => { u with postCount := u.postCount + 1 }) ∧
    Store.categoryById (createThread actor title content (some cid) tags newId now s).2 cx
      = Store.categoryById s cx := by
  rw [createThread_run actor title content cid tags newId now s cat hT hC hc]
  simp only [Store.categoryById, Store.userById, categories_updUserDoc,
    categories_updCategoryDoc, users_updUserDoc, users_updCategoryDoc]
  refine ⟨trivial, ?_, ?_, ?_⟩
  · exact find?_upd_cat s.categories
      (fun c => { c with threadCount := c.threadCount + 1 }) (fun c => rfl) cid
  · exact find?_upd_user s.users
      (fun u => { u with postCount := u.postCount + 1 }) (fun u => rfl) actor.id
  · exact find?_upd_cat_other s.categories
      (fun c => { c with threadCount := c.threadCount + 1 }) (fun c => rfl) cid cx hcx

/-- Witness for C5: user 3 creates a thread in category 10; category 11 keeps
both of its counts. -/
theorem createThread_counts_witness :
    ("T" : String) ≠ "" ∧ ("B" : String) ≠ "" ∧
    exStore.categories.find? (fun c => c.id == 10 && c.isActive) = some exCat ∧
    (11 : Nat) ≠ 10 ∧
    ((createThread exUserC "T" "B" (some 10) [] 22 9 exStore).1 = Outcome.created ∧
      Store.categoryById (createThread exUserC "T" "B" (some 10) [] 22 9 exStore).2 10
        = (Store.categoryById exStore 10).map
            (fun c => { c with threadCount := c.threadCount + 1 }) ∧
      Store.userById (createThread exUserC "T" "B" (some 10) [] 22 9 exStore).2 exUserC.id
        = (Store.userById exStore exUserC.id).map
            (fun u => { u with postCount := u.postCount + 1 }) ∧
      Store.categoryById (createThread exUserC "T" "B" (some 10) [] 22 9 exStore).2 11
        = Store.categoryById exStore 11) :=
  ⟨by decide, by decide, by decide, by decide,
    createThread_counts exUserC "T" "B" 10 22 9 [] exStore exCat 11
      (by decide) (by decide) (by decide) (by decide)⟩

/-- Claim C2 counterexample: an admin who is not the author is refused the
post edit (the handler checks only authorship there), refuting the claim that
every Thread/Post mutation is permitted exactly for author-or-admin. -/
theorem post_edit_admin_forbidden_counterexample :
    exAdmin.role = Role.admin ∧
    exStore.posts.find? (fun p => p.id == 30 && p.isActive) = some exPost ∧
    exPost.author ≠ exAdmin.id ∧
    updatePost exAdmin 30 "better text" 9 exStore = (Outcome.forbidden, exStore) :=
  ⟨by decide, by decide, by decide, by decide⟩

/-- Claim C2 (amended): thread edit, thread soft-delete and post soft-delete
are permitted exactly for the author or an admin, and a refused actor gets
FORBIDDEN with the store unchanged; post edit, however, is permitted exactly
for the author — an admin who is not the author is refused. -/
theorem mutate_authorization
    (actor : User) (pid tid : Nat) (content : String) (now : Nat)
    (etitle econtent : String) (etags : Option (List String))
    (s : Store) (post : Post) (thread : Thread)
    (hcn : content ≠ "")
    (hp : s.posts.find? (fun p => p.id == pid && p.isActive) = some post)
    (ht : s.threads.find? (fun t => t.id == tid && t.isActive) = some thread) :
    (updatePost actor pid content now s = (Outcome.forbidden, s)
        ↔ post.author ≠ actor.id) ∧
    ((updatePost actor pid content now s).1 = Outcome.forbidden
        ↔ post.author ≠ actor.id) ∧
    (deletePost actor pid s = (Outcome.forbidden, s)
        ↔ ¬(post.author = actor.id ∨ actor.role = Role.admin)) ∧
    ((deletePost actor pid s).1 = Outcome.forbidden
        ↔ ¬(post.author = actor.id ∨ actor.role = Role.admin)) ∧
    (updateThreadRoute actor tid etitle econtent etags s = (Outcome.forbidden, s)
        ↔ ¬(thread.author = actor.id ∨ actor.role = Role.admin)) ∧
    ((updateThreadRoute actor tid etitle econtent etags s).1 = Outcome.forbidden
        ↔ ¬(thread.author = actor.id ∨ actor.role = Role.admin)) ∧
    (deleteThread actor tid s = (Outcome.forbidden, s)
        ↔ ¬(thread.author = actor.id ∨ actor.role = Role.admin)) ∧
    ((deleteThread actor tid s).1 = Outcome.forbidden
        ↔ ¬(thread.author = actor.id ∨ actor.role = Role.admin)) := by
  refine ⟨?_, ?_, ?_, ?_, ?_, ?_, ?_, ?_⟩
  · by_cases ha : post.author = actor.id <;> simp [updatePost, hcn, hp, ha]
  · by_cases ha : post.author = actor.id <;> simp [updatePost, hcn, hp, ha]
  · by_cases hz : post.author = actor.id ∨ actor.role = Role.admin
    · have hnz : ¬(post.author ≠ actor.id ∧ actor.role ≠ Role.admin) := by tauto
      cases hthd : s.threads.find? (fun t => t.id == post.thread) <;>
        simp [deletePost, hp, hnz, hthd, hz]
    · have hnz : post.author ≠ actor.id ∧ actor.role ≠ Role.admin := by tauto
      simp [deletePost, hp, hnz, hz]
  · by_cases hz : post.author = actor.id ∨ actor.role = Role.admin
    · have hnz : ¬(post.author ≠ actor.id ∧ actor.role ≠ Role.admin) := by tauto
      cases hthd : s.threads.find? (fun t => t.id == post.thread) <;>
        simp [deletePost, hp, hnz, hthd, hz]
    · have hnz : post.author ≠ actor.id ∧ actor.role ≠ Role.admin := by tauto
      simp [deletePost, hp, hnz, hz]
  · by_cases hz : thread.author = actor.id ∨ actor.role = Role.admin
    · have hnz : ¬(thread.author ≠ actor.id ∧ actor.role ≠ Role.admin) := by tauto
      simp [updateThreadRoute, ht, hnz, hz]
    · have hnz : thread.author ≠ actor.id ∧ actor.role ≠ Role.admin := by tauto
      simp [updateThreadRoute, ht, hnz, hz]
  · by_cases hz : thread.author = actor.id ∨ actor.role = Role.admin
    · have hnz : ¬(thread.author ≠ actor.id ∧ actor.role ≠ Role.admin) := by tauto
      simp [updateThreadRoute, ht, hnz, hz]
    · have hnz : thread.author ≠ actor.id ∧ actor.role ≠ Role.admin := by tauto
      simp [updateThreadRoute, ht, hnz, hz]
  · by_cases hz : thread.author = actor.id ∨ actor.role = Role.admin
    · have hnz : ¬(thread.author ≠ actor.id ∧ actor.role ≠ Role.admin) := by tauto
      simp [deleteThread, ht, hnz, hz]
    · have hnz : thread.author ≠ actor.id ∧ actor.role ≠ Role.admin := by tauto
      simp [deleteThread, ht, hnz, hz]
  · by_cases hz : thread.author = actor.id ∨ actor.role = Role.admin
    · have hnz : ¬(thread.author ≠ actor.id ∧ actor.role ≠ Role.admin) := by tauto
      simp [deleteThread, ht, hnz, hz]
    · have hnz : thread.author ≠ actor.id ∧ actor.role ≠ Role.admin := by tauto
      simp [deleteThread, ht, hnz, hz]

/-- Witness for the amended C2: user 3 is neither author nor admin on the
concrete post and thread. -/
theorem mutate_authorization_witness :
    ("zz" : String) ≠ "" ∧
    exStore.posts.find? (fun p => p.id == 30 && p.isActive) = some exPost ∧
    exStore.threads.find? (fun t => t.id == 20 && t.isActive) = some exThread ∧
    ((updatePost exUserC 30 "zz" 9 exStore = (Outcome.forbidden, exStore)
        ↔ exPost.author ≠ exUserC.id) ∧
      ((updatePost exUserC 30 "zz" 9 exStore).1 = Outcome.forbidden
        ↔ exPost.author ≠ exUserC.id) ∧
      (deletePost exUserC 30 exStore = (Outcome.forbidden, exStore)
        ↔ ¬(exPost.author = exUserC.id ∨ exUserC.role = Role.admin)) ∧
      ((deletePost exUserC 30 exStore).1 = Outcome.forbidden
        ↔ ¬(exPost.author = exUserC.id ∨ exUserC.role = Role.admin)) ∧
      (updateThreadRoute exUserC 20 "a" "b" none exStore = (Outcome.forbidden, exStore)
        ↔ ¬(exThread.author = exUserC.id ∨ exUserC.role = Role.admin)) ∧
      ((updateThreadRoute exUserC 20 "a" "b" none exStore).1 = Outcome.forbidden
        ↔ ¬(exThread.author = exUserC.id ∨ exUserC.role = Role.admin)) ∧
      (deleteThread exUserC 20 exStore = (Outcome.forbidden, exStore)
        ↔ ¬(exThread.author = exUserC.id ∨ exUserC.role = Role.admin)) ∧
      ((deleteThread exUserC 20 exStore).1 = Outcome.forbidden
        ↔ ¬(exThread.author = exUserC.id ∨ exUserC.role = Role.admin))) :=
  ⟨by decide, by decide, by decide,
    mutate_authorization exUserC 30 20 "zz" 9 "a" "b" none exStore exPost exThread
      (by decide) (by decide) (by decide)⟩

/-- A successful soft-delete returns ok and decrements the parent thread's
replyCount as seen through the thread lookup. -/
theorem deletePost_outcome_and_thread (actor2 : User) (pid : Nat) (S : Store)
    (post : Post) (thr : Thread)
    (hp : S.posts.find? (fun p => p.id == pid && p.isActive) = some post)
    (ht : S.threads.find? (fun t => t.id == post.thread) = some thr)
    (hz : post.author = actor2.id ∨ actor2.role = Role.admin) :
    (deletePost actor2 pid S).1 = Outcome.ok ∧
    Store.threadById (deletePost actor2 pid S).2 thr.id
      = (Store.threadById S thr.id).map
          (fun t => { t with replyCount := t.replyCount - 1 }) := by
  rw [deletePost_run actor2 pid S post thr hp ht hz]
  simp only [Store.threadById, threads_updCategoryDoc, threads_updUserDoc,
    threads_updThreadDoc, threads_savePost]
  refine ⟨trivial, ?_⟩
  exact find?_upd_thread S.threads
    (fun t => { t with replyCount := t.replyCount - 1 }) (fun t => rfl) thr.id

/-- Claim C3: a successful Post-create on a thread followed by a successful
soft-delete of that same fresh Post leaves the thread's replyCount at its
value before the sequence. -/
theorem create_then_delete_replyCount
    (actor actor2 : User) (content : String) (tid newId now : Nat) (pp : Option Nat)
    (s : Store) (thread : Thread)
    (hc : content ≠ "")
    (ht : s.threads.find? (fun t => t.id == tid && t.isActive) = some thread)
    (ht2 : s.threads.find? (fun t => t.id == tid) = some thread)
    (hl : thread.isLocked = false)
    (hpar : parentOk pp tid s = true)
    (hfresh : ∀ p ∈ s.posts, p.id ≠ newId)
    (hz : actor.id = actor2.id ∨ actor2.role = Role.admin) :
    (createPost actor content (some tid) pp newId now s).1 = Outcome.created ∧
    (deletePost actor2 newId (createPost actor content (some tid) pp newId now s).2).1
      = Outcome.ok ∧
    (Store.threadById
        (deletePost actor2 newId
          (createPost actor content (some tid) pp newId now s).2).2 tid).map
        (fun t => t.replyCount)
      = (Store.threadById s tid).map (fun t => t.replyCount) := by
  have h1 := createPost_run actor content tid pp newId now s thread hc ht hl hpar
  have hid : thread.id = tid := by
    have := List.find?_some ht2
    simpa using this
  have hfindp : (createPost actor content (some tid) pp newId now s).2.posts.find?
      (fun p => p.id == newId && p.isActive)
      = some { id := newId, content := content, author := actor.id, thread := tid,
               parentPost := pp, isActive := true, likes := [], isEdited := false,
               editedAt := none, editHistory := [] } := by
    rw [h1]
    simp only [posts_updCategoryDoc, posts_updUserDoc, posts_updThreadDoc]
    have h0 : s.posts.find? (fun p => p.id == newId && p.isActive) = none :=
      List.find?_eq_none.mpr (fun x hx => by simp [hfresh x hx])
    simp [h0]
  have hfindt : (createPost actor content (some tid) pp newId now s).2.threads.find?
      (fun t => t.id == tid)
      = some { thread with
               replyCount := thread.replyCount + 1,
               lastReply := { author := some actor.id, createdAt := now } } := by
    rw [h1]
    simp only [threads_updCategoryDoc, threads_updUserDoc, threads_updThreadDoc]
    rw [find?_upd_thread s.threads
      (fun t => { t with
                  replyCount := t.replyCount + 1,
                  lastReply := { author := some actor.id, createdAt := now } })
      (fun t => rfl) tid, ht2]
    rfl
  have hmain := deletePost_outcome_and_thread actor2 newId
    (createPost actor content (some tid) pp newId now s).2
    { id := newId, content := content, author := actor.id, thread := tid,
      parentPost := pp, isActive := true, likes := [], isEdited := false,
      editedAt := none, editHistory := [] }
    { thread with
      replyCount := thread.replyCount + 1,
      lastReply := { author := some actor.id, createdAt := now } }
    hfindp hfindt hz
  refine ⟨by rw [h1], hmain.1, ?_⟩
  have hthr2id : ({ thread with
      replyCount := thread.replyCount + 1,
      lastReply := { author := some actor.id, createdAt := now } } : Thread).id = tid := hid
  have hm2 := hmain.2
  rw [hthr2id] at hm2
  have hSt : Store.threadById (createPost actor content (some tid) pp newId now s).2 tid
      = some { thread with
               replyCount := thread.replyCount + 1,
               lastReply := { author := some actor.id, createdAt := now } } := hfindt
  have hs0 : Store.threadById s tid = some thread := ht2
  rw [hm2, hSt, hs0]
  simp

/-- Witness for C3: user 1 creates post 31 on thread 20 and deletes it again;
the thread lookup reports the original replyCount. -/
theorem create_then_delete_replyCount_witness :
    ("hi" : String) ≠ "" ∧
    exStore.threads.find? (fun t => t.id == 20 && t.isActive) = some exThread ∧
    exStore.threads.find? (fun t => t.id == 20) = some exThread ∧
    exThread.isLocked = false ∧
    parentOk none 20 exStore = true ∧
    (∀ p ∈ exStore.posts, p.id ≠ 31) ∧
    (exUserA.id = exUserA.id ∨ exUserA.role = Role.admin) ∧
    ((createPost exUserA "hi" (some 20) none 31 9 exStore).1 = Outcome.created ∧
      (deletePost exUserA 31 (createPost exUserA "hi" (some 20) none 31 9 exStore).2).1
        = Outcome.ok ∧
      (Store.threadById
          (deletePost exUserA 31
            (createPost exUserA "hi" (some 20) none 31 9 exStore).2).2 20).map
          (fun t => t.replyCount)
        = (Store.threadById exStore 20).map (fun t => t.replyCount)) :=
  ⟨by decide, by decide, by decide, by decide, by decide, by decide, by decide,
    create_then_delete_replyCount exUserA exUserA "hi" 20 31 9 none exStore exThread
      (by decide) (by decide) (by decide) (by decide) (by decide) (by decide) (by decide)⟩

/-- Claim C4: toggling a like twice in succession by the same user, on a Post
or a Thread, returns the entity's likes array to its original membership
(same set of liker ids) and original length. -/
theorem like_toggle_twice_restores
    (actor : User) (pid tid n1 n2 x : Nat) (s : Store) (post : Post) (thread : Thread)
    (hndp : (s.posts.map (fun p => p.id)).Nodup)
    (hndt : (s.threads.map (fun t => t.id)).Nodup)
    (hp : s.posts.find? (fun p => p.id == pid && p.isActive) = some post)
    (ht : s.threads.find? (fun t => t.id == tid && t.isActive) = some thread)
    (hup : (post.likes.map LikeEntry.user).Nodup)
    (hut : (thread.likes.map LikeEntry.user).Nodup) :
    ((likePost actor pid n2 (likePost actor pid n1 s).2).2.posts.find?
        (fun p => p.id == pid && p.isActive)).map (fun p => p.likes.length)
      = some post.likes.length ∧
    ((likePost actor pid n2 (likePost actor pid n1 s).2).2.posts.find?
        (fun p => p.id == pid && p.isActive)).map
        (fun p => decide (x ∈ p.likes.map LikeEntry.user))
      = some (decide (x ∈ post.likes.map LikeEntry.user)) ∧
    ((likeThread actor tid n2 (likeThread actor tid n1 s).2).2.threads.find?
        (fun t => t.id == tid && t.isActive)).map (fun t => t.likes.length)
      = some thread.likes.length ∧
    ((likeThread actor tid n2 (likeThread actor tid n1 s).2).2.threads.find?
        (fun t => t.id == tid && t.isActive)).map
        (fun t => decide (x ∈ t.likes.map LikeEntry.user))
      = some (decide (x ∈ thread.likes.map LikeEntry.user)) := by
  have hrun1 : likePost actor pid n1 s
      = (Outcome.ok, savePost s { post with likes := toggleLikes post.likes actor.id n1 }) := by
    simp only [likePost, hp]
  have hpredP : (post.id == pid && post.isActive) = true := by
    have h2 := List.find?_some hp
    simpa using h2
  have hpredT : (thread.id == tid && thread.isActive) = true := by
    have h2 := List.find?_some ht
    simpa using h2
  have hfind1 : (savePost s { post with likes := toggleLikes post.likes actor.id n1 }).posts.find?
      (fun p => p.id == pid && p.isActive)
      = some { post with likes := toggleLikes post.likes actor.id n1 } := by
    rw [posts_savePost]
    exact find?_replace_nodup (fun q => q.id) (fun p => p.id == pid && p.isActive) post
      { post with likes := toggleLikes post.likes actor.id n1 } s.posts hndp hp (by rfl)
      hpredP
  have hnd1 : ((savePost s { post with likes := toggleLikes post.likes actor.id n1 }).posts.map
      (fun p => p.id)).Nodup := by
    rw [posts_savePost]
    have hmk := map_key_replace (fun q => q.id)
      ({ post with likes := toggleLikes post.likes actor.id n1 } : Post) s.posts
      post.id rfl
    exact hmk.symm ▸ hndp
  have hrun2 : likePost actor pid n2
        (savePost s { post with likes := toggleLikes post.likes actor.id n1 })
      = (Outcome.ok,
          savePost (savePost s { post with likes := toggleLikes post.likes actor.id n1 })
            { post with
              likes := toggleLikes (toggleLikes post.likes actor.id n1) actor.id n2 }) := by
    simp only [likePost, hfind1]
  have hfind2 : (savePost (savePost s { post with likes := toggleLikes post.likes actor.id n1 })
        { post with
          likes := toggleLikes (toggleLikes post.likes actor.id n1) actor.id n2 }).posts.find?
      (fun p => p.id == pid && p.isActive)
      = some { post with
               likes := toggleLikes (toggleLikes post.likes actor.id n1) actor.id n2 } := by
    rw [posts_savePost]
    exact find?_replace_nodup (fun q => q.id) (fun p => p.id == pid && p.isActive)
      { post with likes := toggleLikes post.likes actor.id n1 }
      { post with likes := toggleLikes (toggleLikes post.likes actor.id n1) actor.id n2 }
      (savePost s { post with likes := toggleLikes post.likes actor.id n1 }).posts
      hnd1 hfind1 (by rfl) hpredP
  have hrun1t : likeThread actor tid n1 s
      = (Outcome.ok,
          saveThread s { thread with likes := toggleLikes thread.likes actor.id n1 }) := by
    simp only [likeThread, ht]
  have hfind1t : (saveThread s
        { thread with likes := toggleLikes thread.likes actor.id n1 }).threads.find?
      (fun t => t.id == tid && t.isActive)
      = some { thread with likes := toggleLikes thread.likes actor.id n1 } := by
    rw [threads_saveThread]
    exact find?_replace_nodup (fun q => q.id) (fun t => t.id == tid && t.isActive) thread
      { thread with likes := toggleLikes thread.likes actor.id n1 } s.threads hndt ht
      (by rfl) hpredT
  have hnd1t : ((saveThread s
        { thread with likes := toggleLikes thread.likes actor.id n1 }).threads.map
      (fun t => t.id)).Nodup := by
    rw [threads_saveThread]
    have hmk := map_key_replace (fun q => q.id)
      ({ thread with likes := toggleLikes thread.likes actor.id n1 } : Thread) s.threads
      thread.id rfl
    exact hmk.symm ▸ hndt
  have hrun2t : likeThread actor tid n2
        (saveThread s { thread with likes := toggleLikes thread.likes actor.id n1 })
      = (Outcome.ok,
          saveThread
            (saveThread s { thread with likes := toggleLikes thread.likes actor.id n1 })
            { thread with
              likes := toggleLikes (toggleLikes thread.likes actor.id n1) actor.id n2 }) := by
    simp only [likeThread, hfind1t]
  have hfind2t : (saveThread
        (saveThread s { thread with likes := toggleLikes thread.likes actor.id n1 })
        { thread with
          likes := toggleLikes (toggleLikes thread.likes actor.id n1) actor.id n2 }).threads.find?
      (fun t => t.id == tid && t.isActive)
      = some { thread with
               likes := toggleLikes (toggleLikes thread.likes actor.id n1) actor.id n2 } := by
    rw [threads_saveThread]
    exact find?_replace_nodup (fun q => q.id) (fun t => t.id == tid && t.isActive)
      { thread with likes := toggleLikes thread.likes actor.id n1 }
      { thread with likes := toggleLikes (toggleLikes thread.likes actor.id n1) actor.id n2 }
      (saveThread s { thread with likes := toggleLikes thread.likes actor.id n1 }).threads
      hnd1t hfind1t (by rfl) hpredT
  refine ⟨?_, ?_, ?_, ?_⟩
  · simp only [hrun1, hrun2, hfind2, Option.map_some']
    rw [toggleLikes_twice_length post.likes actor.id n1 n2 hup]
  · simp only [hrun1, hrun2, hfind2, Option.map_some']
    exact congrArg some (decide_eq_decide.mpr (toggleLikes_twice_mem post.likes actor.id n1 n2 x))
  · simp only [hrun1t, hrun2t, hfind2t, Option.map_some']
    rw [toggleLikes_twice_length thread.likes actor.id n1 n2 hut]
  · simp only [hrun1t, hrun2t, hfind2t, Option.map_some']
    exact congrArg some
      (decide_eq_decide.mpr (toggleLikes_twice_mem thread.likes actor.id n1 n2 x))

/-- Witness for C4: user 1 toggles twice on post 30 and thread 20; user id 3
is the membership probe. -/
theorem like_toggle_twice_restores_witness :
    (exStore.posts.map (fun p => p.id)).Nodup ∧
    (exStore.threads.map (fun t => t.id)).Nodup ∧
    exStore.posts.find? (fun p => p.id == 30 && p.isActive) = some exPost ∧
    exStore.threads.find? (fun t => t.id == 20 && t.isActive) = some exThread ∧
    (exPost.likes.map LikeEntry.user).Nodup ∧
    (exThread.likes.map LikeEntry.user).Nodup ∧
    (((likePost exUserA 30 9 (likePost exUserA 30 8 exStore).2).2.posts.find?
        (fun p => p.id == 30 && p.isActive)).map (fun p => p.likes.length)
      = some exPost.likes.length ∧
    ((likePost exUserA 30 9 (likePost exUserA 30 8 exStore).2).2.posts.find?
        (fun p => p.id == 30 && p.isActive)).map
        (fun p => decide (3 ∈ p.likes.map LikeEntry.user))
      = some (decide (3 ∈ exPost.likes.map LikeEntry.user)) ∧
    ((likeThread exUserA 20 9 (likeThread exUserA 20 8 exStore).2).2.threads.find?
        (fun t => t.id == 20 && t.isActive)).map (fun t => t.likes.length)
      = some exThread.likes.length ∧
    ((likeThread exUserA 20 9 (likeThread exUserA 20 8 exStore).2).2.threads.find?
        (fun t => t.id == 20 && t.isActive)).map
        (fun t => decide (3 ∈ t.likes.map LikeEntry.user))
      = some (decide (3 ∈ exThread.likes.map LikeEntry.user))) :=
  ⟨by decide, by decide, by decide, by decide, by decide, by decide,
    like_toggle_twice_restores exUserA 30 20 8 9 3 exStore exPost exThread
      (by decide) (by decide) (by decide) (by decide) (by decide) (by decide)⟩

end Forum
